import Mathlib

/-!
# Shallow embedding of the VenueVibe booking core

This file embeds the booking-creation pipeline of `src/app.py`
(`create_booking`, the `POST /bookings` handler) together with the data
model of `src/models.py`, and proves the specification claims about it.

Modelling conventions:

* Calendar dates are modelled as `Int` day ordinals (Python's
  `date.toordinal()`): Python's `date` subtraction `(d2 - d1).days` is
  exactly ordinal subtraction.
* A stored `DateTime` value (`Booking.event_date`, `Booking.end_date`)
  is a `Timestamp`: a day ordinal plus a time-of-day count (seconds).
  `datetime.date()` truncation is projection to the `day` field.
* The request body's `event_date`/`end_date` fields are raw strings.
  `DateInput` classifies them the way `create_booking` parses them:
  a 10-character `YYYY-MM-DD` string (parsed with
  `datetime.strptime(.., "%Y-%m-%d")`, giving midnight), a full
  ISO-8601 timestamp (parsed with `datetime.fromisoformat` after
  replacing a trailing `Z`), or a string neither parser (and neither
  does the PostgreSQL timestamp cast) accepts.
* The database session is a pure `DB` value; SQLAlchemy queries become
  list lookups; `db.add` + `db.commit` become appending a record and
  advancing the id counter.
* An `HTTPException` raised by the handler becomes `Except.error` with
  the corresponding `BookingError`; an exception the handler does not
  raise or catch (a `ValueError` from date parsing, or a PostgreSQL
  `DataError` from casting a malformed bound string in the conflict
  query) is `BookingError.internalError`, surfaced by the framework as
  an HTTP 500.
-/

/-- A stored SQL `DateTime` value: day ordinal plus time of day.
`models.py` declares `event_date`/`end_date` as `DateTime` columns, so
the stored value keeps its time-of-day component. -/
structure Timestamp where
  day : Int
  tod : Nat
deriving DecidableEq, Repr

/-- A raw date string of the request body (`BookingSchema.event_date`,
`BookingSchema.end_date` in `app.py`), classified by form:
`dateOnly` is a 10-character `YYYY-MM-DD` string, `isoTimestamp` a full
ISO-8601 timestamp naming calendar day `day` and time of day `tod`,
`malformed` a string accepted neither by the Python parsers in
`create_booking` nor by the PostgreSQL timestamp cast. -/
inductive DateInput
  | dateOnly (day : Int)
  | isoTimestamp (day : Int) (tod : Nat)
  | malformed (s : String)
deriving DecidableEq, Repr

/-- Parsing a raw date string to a timestamp.  This is at once the
Python-side parse in section D of `create_booking` (`strptime` for the
10-character form — midnight; `fromisoformat` for the ISO form; a
`ValueError` otherwise, modelled as `none`) and the PostgreSQL cast
applied to the raw string bound in the conflict query of section C
(`'YYYY-MM-DD'::timestamp` is midnight, an ISO literal keeps its time
of day, a malformed literal raises `DataError`, modelled as `none`). -/
def parseDatetime : DateInput → Option Timestamp
  | .dateOnly day => some ⟨day, 0⟩
  | .isoTimestamp day tod => some ⟨day, tod⟩
  | .malformed _ => none

/-- `users` table row (`models.py`); only the fields the booking core
can observe are kept. -/
structure User where
  id : Int
  username : String
  email : String
deriving DecidableEq, Repr

/-- `venues` table row (`models.py`). -/
structure Venue where
  id : Int
  name : String
  location : String
  capacity : Int
  price_per_day : Int
  category : String
deriving DecidableEq, Repr

/-- `bookings` table row (`models.py`). `event_date` is a `DateTime`
column, `end_date` a nullable `DateTime` column. -/
structure Booking where
  id : Int
  user_id : Int
  venue_id : Int
  event_date : Timestamp
  end_date : Option Timestamp
  guest_count : Int
  total_cost : Int
  status : String
  contact_email : String
  contact_phone : Option String
deriving DecidableEq, Repr

/-- The request body `BookingSchema` (`app.py`).  `end_date = none`
covers both an absent field and the empty string, which the handler's
`if booking.end_date:` treats as absent (falsy). -/
structure BookingSchema where
  user_id : Int
  venue_id : Int
  event_date : DateInput
  end_date : Option DateInput
  guest_count : Int
  contact_email : String
  contact_phone : Option String
deriving DecidableEq, Repr

/-- The database state visible to `create_booking`: the three tables it
can touch, plus the id the store will assign to the next inserted
booking row. -/
structure DB where
  users : List User
  venues : List Venue
  bookings : List Booking
  next_booking_id : Int
deriving DecidableEq, Repr

/-- `db.query(Venue).filter(Venue.id == booking.venue_id).first()`. -/
def getVenue (db : DB) (vid : Int) : Option Venue :=
  db.venues.find? (fun v => v.id == vid)

/-- The row filter of the availability query in section C of
`create_booking`: venue id matches, `Booking.event_date` equals the
timestamp PostgreSQL cast the raw request string to, and status is
`"Approved"`. -/
def isApprovedConflict (vid : Int) (ts : Timestamp) (b : Booking) : Bool :=
  b.venue_id == vid && b.event_date == ts && b.status == "Approved"

/-- `db.query(Booking).filter(venue_id ==, event_date ==, status ==
"Approved").first()` is non-empty. -/
def hasConflict (db : DB) (vid : Int) (ts : Timestamp) : Bool :=
  db.bookings.any (isApprovedConflict vid ts)

/-- The outcomes of the handler.  The first three are the
`HTTPException`s `create_booking` raises (404 `"Venue not found"`;
400 carrying the guest count and the capacity in its detail string;
400 `"Venue is not available on this date"`).  `internalError` is an
exception the handler neither raises nor catches — a date-parsing
`ValueError` or a PostgreSQL `DataError` — surfaced as an HTTP 500. -/
inductive BookingError
  | venueNotFound
  | capacityExceeded (guest_count : Int) (capacity : Int)
  | dateUnavailable
  | internalError
deriving DecidableEq, Repr

/-- The JSON body `create_booking` returns on success:
`{"message": "Booking request submitted", "status": "Pending"}`. -/
structure BookingResponse where
  message : String
  status : String
deriving DecidableEq, Repr

/-- Section D's parsing of the optional `end_date`: absent stays
absent, a present string must parse (a `ValueError` — `none` here —
escapes the handler). -/
def parseEndDate : Option DateInput → Option (Option Timestamp)
  | none => some none
  | some di => (parseDatetime di).map some

/-- `days_diff` of section D: `(end_date.date() - event_date.date())
.days + 1` when an end date is present (`.date()` truncates to the day
ordinal), else `1`. -/
def spanDays (event_date : Timestamp) (end_date : Option Timestamp) : Int :=
  match end_date with
  | some e => (e.day - event_date.day) + 1
  | none => 1

/-- The insert of section D: build the new `Booking` row with status
`"Pending"` and the computed total cost, append it, advance the id
counter, and answer the fixed success body. -/
def insertBooking (db : DB) (booking : BookingSchema) (venue : Venue)
    (event_date : Timestamp) (end_date : Option Timestamp) :
    DB × Except BookingError BookingResponse :=
  let total_cost := venue.price_per_day * spanDays event_date end_date
  let nb : Booking :=
    { id := db.next_booking_id
      user_id := booking.user_id
      venue_id := booking.venue_id
      event_date := event_date
      end_date := end_date
      guest_count := booking.guest_count
      total_cost := total_cost
      status := "Pending"
      contact_email := booking.contact_email
      contact_phone := booking.contact_phone }
  ({ db with
      bookings := db.bookings ++ [nb]
      next_booking_id := db.next_booking_id + 1 },
   .ok ⟨"Booking request submitted", "Pending"⟩)

/-- The `POST /bookings` handler `create_booking` of `app.py`.

A. venue lookup, 404 when absent.
B. capacity check, 400 when `guest_count > capacity`.
C. availability check: the *raw* `event_date` string is bound into the
   SQL query and cast by PostgreSQL (a malformed string makes the query
   itself fail — an uncaught `DataError`, HTTP 500); a matching
   `"Approved"` row yields the 400 `"Venue is not available"` error.
D. Python-side parsing of `event_date` (already known well-formed after
   C) and of `end_date` when present (a `ValueError` escapes, HTTP
   500), cost computation, insert, commit, fixed success body.

The returned `DB` is the session state after the call: unchanged on
every failure path (every exception is raised before `db.add`). -/
def create_booking (db : DB) (booking : BookingSchema) :
    DB × Except BookingError BookingResponse :=
  match getVenue db booking.venue_id with
  | none => (db, .error .venueNotFound)
  | some venue =>
    if booking.guest_count > venue.capacity then
      (db, .error (.capacityExceeded booking.guest_count venue.capacity))
    else
      match parseDatetime booking.event_date with
      | none => (db, .error .internalError)
      | some event_date =>
        if hasConflict db booking.venue_id event_date then
          (db, .error .dateUnavailable)
        else
          match parseEndDate booking.end_date with
          | none => (db, .error .internalError)
          | some end_date => insertBooking db booking venue event_date end_date

/-! ## Concrete fixtures (the spec's §8 scenario: venue of capacity 200
at 45000 per day; day ordinal 739033 is 2025-06-01) -/

/-- The §8 scenario venue: id 1, capacity 200, price_per_day 45000. -/
def gardenVenue : Venue :=
  ⟨1, "Sunset Garden", "Nairobi", 200, 45000, "Garden"⟩

/-- An already-approved single-day booking of `gardenVenue` on ordinal
day 739033, stored at midnight (it was created from a `YYYY-MM-DD`
request). -/
def approvedJune1 : Booking :=
  ⟨1, 7, 1, ⟨739033, 0⟩, none, 50, 45000, "Approved", "prior@example.com", none⟩

/-- A store holding `gardenVenue` and the approved June-1 booking. -/
def dbWithApproved : DB := ⟨[], [gardenVenue], [approvedJune1], 2⟩

/-- A store holding only `gardenVenue`, no bookings, no users. -/
def dbEmptyLedger : DB := ⟨[], [gardenVenue], [], 1⟩

/-! ## Helper lemmas -/

/-- The availability query finds a row exactly when some stored booking
matches on venue id, on the cast timestamp, and on status
`"Approved"`. -/
theorem hasConflict_iff (db : DB) (vid : Int) (ts : Timestamp) :
    hasConflict db vid ts = true ↔
      ∃ b ∈ db.bookings,
        b.venue_id = vid ∧ b.event_date = ts ∧ b.status = "Approved" := by
  simp [hasConflict, isApprovedConflict, List.any_eq_true, Bool.and_eq_true,
    and_assoc]

/-- Whatever happens after the conflict check (end-date parse failure
or a successful insert), the result is never `dateUnavailable`. -/
theorem after_conflict_not_dateUnavailable (db : DB) (req : BookingSchema)
    (venue : Venue) (ts : Timestamp) :
    (match parseEndDate req.end_date with
      | none => (db, (.error .internalError : Except BookingError BookingResponse))
      | some e => insertBooking db req venue ts e).2 ≠
      .error .dateUnavailable := by
  cases parseEndDate req.end_date <;> simp [insertBooking]

/-- **C1.** For a request whose venue exists and whose guest count is
within capacity, `create_booking` answers `DateUnavailable` exactly
when some stored booking for that venue with status `Approved` has an
`event_date` equal to the timestamp the request's raw `event_date`
string denotes; a span overlap without that equality is not rejected,
since only `event_date` equality is queried. -/
theorem create_booking_dateUnavailable_iff
    (db : DB) (req : BookingSchema) (v : Venue)
    (hv : getVenue db req.venue_id = some v)
    (hcap : req.guest_count ≤ v.capacity) :
    (create_booking db req).2 = .error .dateUnavailable ↔
      ∃ b ∈ db.bookings,
        b.venue_id = req.venue_id ∧
        some b.event_date = parseDatetime req.event_date ∧
        b.status = "Approved" := by
  have hlt : ¬ req.guest_count > v.capacity := not_lt.mpr hcap
  unfold create_booking
  rw [hv]
  simp only [hlt, if_false]
  cases hp : parseDatetime req.event_date with
  | none => simp
  | some ts =>
    by_cases hc : hasConflict db req.venue_id ts = true
    · simp only [hc, if_true]
      have := (hasConflict_iff db req.venue_id ts).mp hc
      simp only [Option.some_inj]
      constructor
      · intro _
        obtain ⟨b, hb, h1, h2, h3⟩ := this
        exact ⟨b, hb, h1, h2, h3⟩
      · intro _; trivial
    · simp only [hc, if_false]
      constructor
      · intro h
        exact absurd h (after_conflict_not_dateUnavailable db req v ts)
      · intro ⟨b, hb, h1, h2, h3⟩
        exact absurd ((hasConflict_iff db req.venue_id ts).mpr
          ⟨b, hb, h1, Option.some_inj.mp h2, h3⟩) hc

/-- Witness for C1: in the fixture store, a within-capacity request for
venue 1 on the approved booking's exact day. -/
theorem create_booking_dateUnavailable_iff_witness :
    (create_booking dbWithApproved
        ⟨3, 1, .dateOnly 739033, none, 150, "c@example.com", none⟩).2 =
        .error .dateUnavailable ↔
      ∃ b ∈ dbWithApproved.bookings,
        b.venue_id = 1 ∧
        some b.event_date = parseDatetime (.dateOnly 739033) ∧
        b.status = "Approved" :=
  create_booking_dateUnavailable_iff dbWithApproved
    ⟨3, 1, .dateOnly 739033, none, 150, "c@example.com", none⟩
    gardenVenue (by decide) (by decide)

/-- When every validation passes — venue found, guest count within
capacity, `event_date` well-formed, no approved conflict, `end_date`
absent or well-formed — `create_booking` reduces to the insert of
section D. -/
theorem create_booking_success_eq
    (db : DB) (req : BookingSchema) (v : Venue) (ts : Timestamp)
    (e : Option Timestamp)
    (hv : getVenue db req.venue_id = some v)
    (hcap : req.guest_count ≤ v.capacity)
    (hts : parseDatetime req.event_date = some ts)
    (hnc : hasConflict db req.venue_id ts = false)
    (he : parseEndDate req.end_date = some e) :
    create_booking db req = insertBooking db req v ts e := by
  unfold create_booking
  rw [hv]
  dsimp only
  rw [if_neg (not_lt.mpr hcap), hts]
  dsimp only
  simp only [hnc, Bool.false_eq_true, if_false]
  rw [he]

/-- **C2.** A request that passes all validations is persisted with
`total_cost = price_per_day * span_days`, where `span_days` is
`(end_date − event_date).days + 1` (difference of truncated day
ordinals) when an end date is present and `1` otherwise, in exact
integer arithmetic. -/
theorem create_booking_total_cost
    (db : DB) (req : BookingSchema) (v : Venue) (ts : Timestamp)
    (e : Option Timestamp)
    (hv : getVenue db req.venue_id = some v)
    (hcap : req.guest_count ≤ v.capacity)
    (hts : parseDatetime req.event_date = some ts)
    (hnc : hasConflict db req.venue_id ts = false)
    (he : parseEndDate req.end_date = some e) :
    ∃ nb, (create_booking db req).1.bookings = db.bookings ++ [nb] ∧
      nb.total_cost = v.price_per_day *
        (match e with
          | some ed => (ed.day - ts.day) + 1
          | none => 1) := by
  rw [create_booking_success_eq db req v ts e hv hcap hts hnc he]
  refine ⟨_, rfl, ?_⟩
  cases e <;> simp [insertBooking, spanDays]

/-- The §8 scenario request: event 2025-06-01 (ordinal 739033), end
2025-06-03 (ordinal 739035), 150 guests. -/
def reqJuneSpan : BookingSchema :=
  ⟨3, 1, .dateOnly 739033, some (.dateOnly 739035), 150, "c@example.com", none⟩

/-- Witness for C2: the three-day §8 request against the empty ledger
gets `total_cost = 45000 * 3`. -/
theorem create_booking_total_cost_witness :
    ∃ nb, (create_booking dbEmptyLedger reqJuneSpan).1.bookings =
        dbEmptyLedger.bookings ++ [nb] ∧
      nb.total_cost = gardenVenue.price_per_day *
        (match (some ⟨739035, 0⟩ : Option Timestamp) with
          | some ed => (ed.day - (739033 : Int)) + 1
          | none => 1) :=
  create_booking_total_cost dbEmptyLedger reqJuneSpan gardenVenue
    ⟨739033, 0⟩ (some ⟨739035, 0⟩) (by decide) (by decide) rfl (by decide) rfl

/-- **C6.** With the venue present: an over-capacity guest count is
rejected with `CapacityExceeded` carrying both numbers and leaves the
store unchanged, while a guest count exactly at capacity is never
rejected for capacity. -/
theorem create_booking_capacity_check
    (db : DB) (req : BookingSchema) (v : Venue)
    (hv : getVenue db req.venue_id = some v) :
    (req.guest_count > v.capacity →
      create_booking db req =
        (db, .error (.capacityExceeded req.guest_count v.capacity))) ∧
    (req.guest_count = v.capacity →
      ∀ g c, (create_booking db req).2 ≠ .error (.capacityExceeded g c)) := by
  constructor
  · intro h
    unfold create_booking
    rw [hv]
    dsimp only
    rw [if_pos h]
  · intro h g c
    have hlt : ¬ req.guest_count > v.capacity := by omega
    unfold create_booking
    rw [hv]
    dsimp only
    rw [if_neg hlt]
    cases hp : parseDatetime req.event_date with
    | none => simp
    | some ts =>
      cases hcf : hasConflict db req.venue_id ts with
      | true => simp [hcf]
      | false =>
        simp only [hcf, Bool.false_eq_true, if_false]
        cases parseEndDate req.end_date <;> simp [insertBooking]

/-- Witness for C6: 250 guests against capacity 200 yields
`CapacityExceeded 250 200` and an unchanged store. -/
theorem create_booking_capacity_check_witness :
    create_booking dbEmptyLedger
        ⟨3, 1, .dateOnly 739033, none, 250, "c@example.com", none⟩ =
      (dbEmptyLedger, .error (.capacityExceeded 250 200)) :=
  (create_booking_capacity_check dbEmptyLedger
      ⟨3, 1, .dateOnly 739033, none, 250, "c@example.com", none⟩
      gardenVenue (by decide)).1 (by decide)

/-- A request whose `end_date` (ordinal 739032) precedes its
`event_date` (ordinal 739033): nothing upstream validates the order. -/
def reqBackwards : BookingSchema :=
  ⟨3, 1, .dateOnly 739033, some (.dateOnly 739032), 150, "c@example.com", none⟩

/-- Counterexample to C3: the backwards request is accepted, yet its
computed span is `0 < 1` and the persisted `total_cost` is
`0 < price_per_day = 45000`. -/
theorem create_booking_span_counterexample :
    (create_booking dbEmptyLedger reqBackwards).2 =
        .ok ⟨"Booking request submitted", "Pending"⟩ ∧
    (create_booking dbEmptyLedger reqBackwards).1.bookings.map
        Booking.total_cost = [0] ∧
    spanDays ⟨739033, 0⟩ (some ⟨739032, 0⟩) = 0 ∧
    gardenVenue.price_per_day = 45000 :=
  ⟨rfl, rfl, rfl, rfl⟩

/-- **C3 (amended).** The computed span is at least 1 only when the end
date is absent or does not precede the event date; an accepted request
satisfying that order (with a nonnegative daily price) is persisted
with `total_cost ≥ price_per_day`.  When `end_date` precedes
`event_date` the request is still accepted, but the span is `≤ 0`
(see the counterexample). -/
theorem create_booking_span_ge_one_amended
    (db : DB) (req : BookingSchema) (v : Venue) (ts : Timestamp)
    (e : Option Timestamp)
    (hv : getVenue db req.venue_id = some v)
    (hcap : req.guest_count ≤ v.capacity)
    (hts : parseDatetime req.event_date = some ts)
    (hnc : hasConflict db req.venue_id ts = false)
    (he : parseEndDate req.end_date = some e)
    (hord : ∀ ed, e = some ed → ts.day ≤ ed.day)
    (hprice : 0 ≤ v.price_per_day) :
    1 ≤ spanDays ts e ∧
    ∃ nb, (create_booking db req).1.bookings = db.bookings ++ [nb] ∧
      v.price_per_day ≤ nb.total_cost := by
  have hspan : 1 ≤ spanDays ts e := by
    cases e with
    | none => simp [spanDays]
    | some ed =>
      have := hord ed rfl
      simp only [spanDays]
      omega
  refine ⟨hspan, ?_⟩
  rw [create_booking_success_eq db req v ts e hv hcap hts hnc he]
  refine ⟨_, rfl, ?_⟩
  show v.price_per_day ≤ v.price_per_day * spanDays ts e
  exact le_mul_of_one_le_right hprice hspan

/-- Witness for the amended C3: the forward three-day §8 request has
span 3 and cost at least the daily price. -/
theorem create_booking_span_ge_one_amended_witness :
    1 ≤ spanDays ⟨739033, 0⟩ (some ⟨739035, 0⟩) ∧
    ∃ nb, (create_booking dbEmptyLedger reqJuneSpan).1.bookings =
        dbEmptyLedger.bookings ++ [nb] ∧
      gardenVenue.price_per_day ≤ nb.total_cost :=
  create_booking_span_ge_one_amended dbEmptyLedger reqJuneSpan gardenVenue
    ⟨739033, 0⟩ (some ⟨739035, 0⟩) (by decide) (by decide) rfl (by decide) rfl
    (by intro ed hed; cases hed; decide) (by decide)

/-- A within-capacity request for venue 1 on the approved booking's
calendar day, in pure `YYYY-MM-DD` form. -/
def reqJune1Date : BookingSchema :=
  ⟨3, 1, .dateOnly 739033, none, 150, "c@example.com", none⟩

/-- The same calendar day requested in ISO-8601 timestamp form with a
nonzero time of day (01:00). -/
def reqJune1Iso : BookingSchema :=
  ⟨3, 1, .isoTimestamp 739033 3600, none, 150, "c@example.com", none⟩

/-- Counterexample to C4: against a store whose approved booking sits
at midnight of day 739033, the date-only request for that day is
rejected with `DateUnavailable` while the ISO-timestamp request naming
the same calendar day (at 01:00) is accepted — the conflict comparison
is not performed on truncated dates. -/
theorem create_booking_truncation_counterexample :
    (create_booking dbWithApproved reqJune1Date).2 =
        .error .dateUnavailable ∧
    (create_booking dbWithApproved reqJune1Iso).2 =
        .ok ⟨"Booking request submitted", "Pending"⟩ :=
  ⟨rfl, rfl⟩

/-- **C4 (amended).** Truncation to the calendar date governs only the
span computation (the span depends only on the day ordinals, not the
times of day), while the availability check compares the stored
`DateTime` against the full timestamp the raw request string denotes,
time of day included. -/
theorem create_booking_truncation_amended
    (ts : Timestamp) (e : Option Timestamp) (db : DB) (vid : Int) :
    spanDays ts e = spanDays ⟨ts.day, 0⟩ (e.map fun x => ⟨x.day, 0⟩) ∧
    (hasConflict db vid ts = true ↔
      ∃ b ∈ db.bookings,
        b.venue_id = vid ∧ b.event_date = ts ∧ b.status = "Approved") := by
  constructor
  · cases e <;> simp [spanDays]
  · exact hasConflict_iff db vid ts

/-- A request whose `event_date` string (`"06/01/2025"`) parses under
neither date form. -/
def reqMalformed : BookingSchema :=
  ⟨3, 1, .malformed "06/01/2025", none, 150, "c@example.com", none⟩

/-- Counterexample to C5: the malformed-date request fails with an
*unhandled* error (the conflict query's timestamp cast raises, and
nothing in the handler catches date errors), surfaced as an HTTP 500
system failure — there is no `InvalidDate` rejection with 400
semantics anywhere in `create_booking`. -/
theorem create_booking_invalidDate_counterexample :
    (create_booking dbEmptyLedger reqMalformed).2 = .error .internalError ∧
    (create_booking dbEmptyLedger reqMalformed).1 = dbEmptyLedger :=
  ⟨rfl, rfl⟩

/-- **C5 (amended).** With the venue present and capacity satisfied, a
request whose `event_date` does not parse fails with an unhandled
error (HTTP 500, store unchanged) — raised by the PostgreSQL cast in
the availability query; likewise a request whose `event_date` parses,
meets no conflict, but whose present `end_date` does not parse fails
with an unhandled `ValueError` (HTTP 500, store unchanged).  No
`InvalidDate` request-rejection exists. -/
theorem create_booking_malformed_date_amended
    (db : DB) (req : BookingSchema) (v : Venue)
    (hv : getVenue db req.venue_id = some v)
    (hcap : req.guest_count ≤ v.capacity) :
    (parseDatetime req.event_date = none →
      create_booking db req = (db, .error .internalError)) ∧
    (∀ ts, parseDatetime req.event_date = some ts →
      hasConflict db req.venue_id ts = false →
      parseEndDate req.end_date = none →
      create_booking db req = (db, .error .internalError)) := by
  constructor
  · intro hbad
    unfold create_booking
    rw [hv]
    dsimp only
    rw [if_neg (not_lt.mpr hcap), hbad]
  · intro ts hts hnc hbad
    unfold create_booking
    rw [hv]
    dsimp only
    rw [if_neg (not_lt.mpr hcap), hts]
    dsimp only
    simp only [hnc, Bool.false_eq_true, if_false]
    rw [hbad]

/-- Witness for the amended C5: a well-formed `event_date` with a
malformed `end_date` string (`"soon"`) reaches the Python-side parse
and dies there. -/
theorem create_booking_malformed_date_amended_witness :
    create_booking dbEmptyLedger
        ⟨3, 1, .dateOnly 739033, some (.malformed "soon"), 150,
          "c@example.com", none⟩ =
      (dbEmptyLedger, .error .internalError) :=
  (create_booking_malformed_date_amended dbEmptyLedger
      ⟨3, 1, .dateOnly 739033, some (.malformed "soon"), 150,
        "c@example.com", none⟩
      gardenVenue (by decide) (by decide)).2
    ⟨739033, 0⟩ rfl (by decide) rfl

/-- **C7.** `create_booking` appends exactly one booking row on
success — with status `"Pending"`, the computed total cost, and the
request's contact fields — and returns the store unchanged on every
failure path. -/
theorem create_booking_side_effects (db : DB) (req : BookingSchema) :
    (∀ resp, (create_booking db req).2 = .ok resp →
      ∃ nb v ts,
        getVenue db req.venue_id = some v ∧
        parseDatetime req.event_date = some ts ∧
        (create_booking db req).1.bookings = db.bookings ++ [nb] ∧
        nb.status = "Pending" ∧
        nb.total_cost = v.price_per_day * spanDays ts nb.end_date ∧
        nb.contact_email = req.contact_email ∧
        nb.contact_phone = req.contact_phone) ∧
    (∀ err, (create_booking db req).2 = .error err →
      (create_booking db req).1 = db) := by
  unfold create_booking
  cases hv : getVenue db req.venue_id with
  | none => exact ⟨fun resp h => by simp at h, fun err h => rfl⟩
  | some v =>
    dsimp only
    by_cases hcap : req.guest_count > v.capacity
    · rw [if_pos hcap]
      exact ⟨fun resp h => by simp at h, fun err h => rfl⟩
    · rw [if_neg hcap]
      cases hp : parseDatetime req.event_date with
      | none => exact ⟨fun resp h => by simp at h, fun err h => rfl⟩
      | some ts =>
        dsimp only
        cases hcf : hasConflict db req.venue_id ts with
        | true =>
          rw [if_pos rfl]
          exact ⟨fun resp h => by simp at h, fun err h => rfl⟩
        | false =>
          rw [if_neg (by simp)]
          cases he : parseEndDate req.end_date with
          | none => exact ⟨fun resp h => by simp at h, fun err h => rfl⟩
          | some e =>
            dsimp only
            refine ⟨fun resp h => ?_, fun err h => by simp [insertBooking] at h⟩
            exact ⟨_, v, ts, rfl, rfl, rfl, rfl, rfl, rfl, rfl⟩

/-- Witness for C7: the §8 three-day request against the empty ledger
succeeds and appends the single expected row. -/
theorem create_booking_side_effects_witness :
    ∃ nb v ts,
      getVenue dbEmptyLedger reqJuneSpan.venue_id = some v ∧
      parseDatetime reqJuneSpan.event_date = some ts ∧
      (create_booking dbEmptyLedger reqJuneSpan).1.bookings =
        dbEmptyLedger.bookings ++ [nb] ∧
      nb.status = "Pending" ∧
      nb.total_cost = v.price_per_day * spanDays ts nb.end_date ∧
      nb.contact_email = reqJuneSpan.contact_email ∧
      nb.contact_phone = reqJuneSpan.contact_phone :=
  (create_booking_side_effects dbEmptyLedger reqJuneSpan).1
    ⟨"Booking request submitted", "Pending"⟩ rfl

/-- The empty-ledger store with a different id counter, used to show
the success body does not depend on the assigned id. -/
def dbEmptyLedger99 : DB := ⟨[], [gardenVenue], [], 99⟩

/-- Counterexample to C8: two runs of the same request against stores
that assign different booking ids (1 versus 99) produce *identical*
success bodies — the response is the constant
`{message, status: "Pending"}` pair and carries neither the created
booking nor its id. -/
theorem create_booking_response_counterexample :
    (create_booking dbEmptyLedger reqJuneSpan).1.bookings.map Booking.id ≠
      (create_booking dbEmptyLedger99 reqJuneSpan).1.bookings.map
        Booking.id ∧
    (create_booking dbEmptyLedger reqJuneSpan).2 =
      (create_booking dbEmptyLedger99 reqJuneSpan).2 ∧
    (create_booking dbEmptyLedger reqJuneSpan).2 =
      .ok ⟨"Booking request submitted", "Pending"⟩ :=
  ⟨by decide, rfl, rfl⟩

/-- **C8 (amended).** On success `create_booking` returns only the
fixed body `{message := "Booking request submitted", status :=
"Pending"}`; the created Booking and its assigned id are not part of
the response. -/
theorem create_booking_success_response
    (db : DB) (req : BookingSchema) (resp : BookingResponse)
    (h : (create_booking db req).2 = .ok resp) :
    resp = ⟨"Booking request submitted", "Pending"⟩ := by
  unfold create_booking at h
  cases hv : getVenue db req.venue_id with
  | none => rw [hv] at h; simp at h
  | some v =>
    rw [hv] at h
    dsimp only at h
    by_cases hcap : req.guest_count > v.capacity
    · rw [if_pos hcap] at h; simp at h
    · rw [if_neg hcap] at h
      cases hp : parseDatetime req.event_date with
      | none => rw [hp] at h; simp at h
      | some ts =>
        rw [hp] at h
        dsimp only at h
        cases hcf : hasConflict db req.venue_id ts with
        | true => simp only [hcf, if_true] at h; simp at h
        | false =>
          simp only [hcf, Bool.false_eq_true, if_false] at h
          cases he : parseEndDate req.end_date with
          | none => rw [he] at h; simp at h
          | some e =>
            rw [he] at h
            dsimp only [insertBooking] at h
            exact (Except.ok.inj h).symm

/-- Witness for the amended C8: the §8 request's success body is the
constant pair. -/
theorem create_booking_success_response_witness :
    (⟨"Booking request submitted", "Pending"⟩ : BookingResponse) =
      ⟨"Booking request submitted", "Pending"⟩ :=
  create_booking_success_response dbEmptyLedger reqJuneSpan
    ⟨"Booking request submitted", "Pending"⟩ rfl

/-- **C9.** `create_booking` never requires `guest_count` to be
positive: whenever the venue exists, `guest_count ≤ capacity` (with no
lower bound — zero and negative counts included), the date parses, and
no approved conflict exists, a booking is created carrying exactly the
supplied `guest_count`. -/
theorem create_booking_no_guest_lower_bound
    (db : DB) (req : BookingSchema) (v : Venue) (ts : Timestamp)
    (e : Option Timestamp)
    (hv : getVenue db req.venue_id = some v)
    (hcap : req.guest_count ≤ v.capacity)
    (hts : parseDatetime req.event_date = some ts)
    (hnc : hasConflict db req.venue_id ts = false)
    (he : parseEndDate req.end_date = some e) :
    ∃ nb,
      (create_booking db req).2 =
        .ok ⟨"Booking request submitted", "Pending"⟩ ∧
      (create_booking db req).1.bookings = db.bookings ++ [nb] ∧
      nb.guest_count = req.guest_count := by
  rw [create_booking_success_eq db req v ts e hv hcap hts hnc he]
  exact ⟨_, rfl, rfl, rfl⟩

/-- Witness for C9: a request for `-5` guests (within capacity 200) is
accepted and persisted with `guest_count = -5`. -/
theorem create_booking_no_guest_lower_bound_witness :
    ∃ nb,
      (create_booking dbEmptyLedger
          ⟨3, 1, .dateOnly 739040, none, -5, "c@example.com", none⟩).2 =
        .ok ⟨"Booking request submitted", "Pending"⟩ ∧
      (create_booking dbEmptyLedger
          ⟨3, 1, .dateOnly 739040, none, -5, "c@example.com", none⟩).1.bookings =
        dbEmptyLedger.bookings ++ [nb] ∧
      nb.guest_count = -5 :=
  create_booking_no_guest_lower_bound dbEmptyLedger
    ⟨3, 1, .dateOnly 739040, none, -5, "c@example.com", none⟩
    gardenVenue ⟨739040, 0⟩ none (by decide) (by decide) rfl (by decide) rfl

/-- **C10.** `create_booking` never consults the `users` table: a
request that passes the venue, capacity, conflict, and date-parsing
steps is persisted carrying the supplied `user_id` unchanged, even
when no stored user has that id. -/
theorem create_booking_no_user_check
    (db : DB) (req : BookingSchema) (v : Venue) (ts : Timestamp)
    (e : Option Timestamp)
    (hv : getVenue db req.venue_id = some v)
    (hcap : req.guest_count ≤ v.capacity)
    (hts : parseDatetime req.event_date = some ts)
    (hnc : hasConflict db req.venue_id ts = false)
    (he : parseEndDate req.end_date = some e)
    (_hu : ∀ u ∈ db.users, u.id ≠ req.user_id) :
    ∃ nb,
      (create_booking db req).2 =
        .ok ⟨"Booking request submitted", "Pending"⟩ ∧
      (create_booking db req).1.bookings = db.bookings ++ [nb] ∧
      nb.user_id = req.user_id := by
  rw [create_booking_success_eq db req v ts e hv hcap hts hnc he]
  exact ⟨_, rfl, rfl, rfl⟩

/-- Witness for C10: the store has no users at all, yet the request
with `user_id = 3` is accepted and stored with `user_id = 3`. -/
theorem create_booking_no_user_check_witness :
    ∃ nb,
      (create_booking dbEmptyLedger
          ⟨3, 1, .dateOnly 739041, none, 20, "c@example.com", none⟩).2 =
        .ok ⟨"Booking request submitted", "Pending"⟩ ∧
      (create_booking dbEmptyLedger
          ⟨3, 1, .dateOnly 739041, none, 20, "c@example.com", none⟩).1.bookings =
        dbEmptyLedger.bookings ++ [nb] ∧
      nb.user_id = 3 :=
  create_booking_no_user_check dbEmptyLedger
    ⟨3, 1, .dateOnly 739041, none, 20, "c@example.com", none⟩
    gardenVenue ⟨739041, 0⟩ none (by decide) (by decide) rfl (by decide) rfl
    (by intro u hu; cases hu)
